import Mathlib

/-
Verification of the matcaffe command-dispatch bridge
(src/matlab/+caffe/private/caffe_.cpp).

The development is a shallow embedding of the bridge's handle registry,
tensor marshaller, and multi-device fan-out/fan-in handlers.  Handlers that
call `mexErrMsgTxt` / `mxCHECK` / `mxERROR` abort the current command at
once; this is embedded as an `Except MexErr` result, where an `error`
outcome produces no result value and leaves caller-owned state untouched
except where the source has already mutated it.  Element values are kept
abstract in a type parameter `a`, since the bridge only moves elements
(single-precision floats in the source) and never computes with them.
-/

set_option autoImplicit false

namespace MatCaffe

/-- Error outcomes of a bridge command.  Each constructor stands for one
concrete `mexErrMsgTxt` message of the source (quoted at its use site). -/
inductive MexErr where
  /-- "number of elements in target blob doesn't match that in input mxArray"
  (caffe_.cpp line 63). -/
  | sizeMismatch
  /-- "Could not convert handle to pointer due to invalid init_key. ..."
  (caffe_.cpp line 144). -/
  | staleHandle
  /-- "blob_set_data_multigpu: input size should be equal to selected gpu
  number." (caffe_.cpp line 637). -/
  | countMismatch
  /-- "blob_set_data_multigpu only work on multi-GPU solver"
  (caffe_.cpp lines 627 and 841). -/
  | noMultiGpuSolver
  /-- Failure of a lookup of a blob by an unknown name inside a replica
  (spec error kind UnknownTensorNameError). -/
  | unknownTensorName
  /-- "get_solver_multigpu: device_id should in [0, gpuDeviceCount-1]"
  (caffe_.cpp line 276). -/
  | invalidDevice
  /-- "No GPU found!!!" (caffe_.cpp line 285). -/
  | noGpu
  /-- "Unknown command ..." raised by mexFunction (caffe_.cpp line 972). -/
  | unknownCommand (cmd : String)
deriving DecidableEq, Repr

/-- Caffe::Brew compute mode (`Caffe::CPU` / `Caffe::GPU`).  The `default`
branch of the source's switches ("Unknown Caffe mode") is unreachable for
this two-valued enum. -/
inductive CaffeMode where
  | CPU
  | GPU
deriving DecidableEq, Repr

/-- WhichMemory enum of caffe_.cpp line 58: selects the value plane (DATA)
or the gradient plane (DIFF) of a blob. -/
inductive WhichMemory where
  | DATA
  | DIFF
deriving DecidableEq, Repr

/-- Host-side numeric mxArray: declared dimension vector plus the flat
(column-major, fastest-first) element buffer. -/
structure MxMat (a : Type) where
  dims : List Nat
  data : List a
deriving DecidableEq, Repr, Inhabited

/-- mxGetNumberOfElements of a well-formed host array; we take the element
buffer as authoritative (its length equals the product of `dims` for every
array MATLAB hands the bridge). -/
def MxMat.numel {a : Type} (m : MxMat a) : Nat :=
  m.data.length

/-- Native caffe::Blob.  Modelled from the spec: the blob's SyncedMemory
mirrors (host-resident and device-resident copies of each plane) are kept
coherent by the engine and hold the same logical element sequence, so each
plane is one flat list and the active compute mode only selects which
mirror is touched, never the values.  `shape` is the native axis order
(axis 0 slowest). -/
structure Blob (a : Type) where
  shape : List Nat
  data : List a
  diff : List a
deriving DecidableEq, Repr, Inhabited

/-- Modelled from the spec: `Blob::count()` (caffe blob.hpp, outside src/)
is the tensor's element count, the product of the shape entries; it is 1
for a zero-axis blob. -/
def Blob.count {a : Type} (b : Blob a) : Nat :=
  b.shape.prod

/-- mx_mat_to_blob (caffe_.cpp lines 61-80): copy a host array into a
blob's DATA or DIFF plane.  The element-count check (line 63) runs before
any buffer pointer is obtained or any element copied; `caffe_copy` then
moves `blob->count()` elements as one flat contiguous sequence.  The
`mode` argument selects the cpu or gpu mirror (lines 67-78), which does
not affect the logical plane contents. -/
def mx_mat_to_blob {a : Type} (mat : MxMat a) (blob : Blob a)
    (mode : CaffeMode) (w : WhichMemory) : Except MexErr (Blob a) :=
  if blob.count = mat.numel then
    match mode, w with
    | _, .DATA => .ok { blob with data := mat.data.take blob.count }
    | _, .DIFF => .ok { blob with diff := mat.data.take blob.count }
  else
    .error .sizeMismatch

/-- State-level reading of `mx_mat_to_blob`: the updated blob on success,
and the untouched original blob together with the raised error when the
size check aborts the command (mexErrMsgTxt fires before any copy). -/
def mx_mat_to_blob_run {a : Type} (mat : MxMat a) (blob : Blob a)
    (mode : CaffeMode) (w : WhichMemory) : Blob a × Option MexErr :=
  match mx_mat_to_blob mat blob mode w with
  | .ok b => (b, none)
  | .error e => (blob, some e)

/-- blob_to_mx_mat (caffe_.cpp lines 83-111): allocate a fresh host array
whose declared dims are the exact reverse of the blob's native shape
(lines 86-90); a zero-axis blob gets dims [1] (lines 92-94).  Then
`caffe_copy` moves `blob->count()` elements of the selected plane as one
flat sequence. -/
def blob_to_mx_mat {a : Type} (blob : Blob a) (mode : CaffeMode)
    (w : WhichMemory) : MxMat a :=
  let dims := if blob.shape.length = 0 then [1] else blob.shape.reverse
  let src := match mode, w with
    | _, .DATA => blob.data
    | _, .DIFF => blob.diff
  { dims := dims, data := src.take blob.count }

/-- Handle struct handed to the host (caffe_.cpp lines 132-137): a uint64
pointer field plus the init_key generation stamp.  Keys are
`caffe_rng_rand()` uint32 draws stored as doubles; every such value is
exactly representable, so double equality coincides with equality of the
drawn naturals. -/
structure Handle where
  ptr : Nat
  init_key : Nat
deriving DecidableEq, Repr

/-- ptr_to_handle / setup_handle (caffe_.cpp lines 159-174): record the
object's address and stamp it with the current generation key. -/
def ptr_to_handle (current_key : Nat) (addr : Nat) : Handle :=
  { ptr := addr, init_key := current_key }

/-- handle_to_ptr (caffe_.cpp lines 139-148): fail when the stored
init_key differs from the registry's current key, otherwise hand back the
reinterpreted pointer.  (The mxIsUint64 field-type check of line 143 is a
host-ABI check; handles built by `ptr_to_handle` always satisfy it.) -/
def handle_to_ptr (current_key : Nat) (h : Handle) : Except MexErr Nat :=
  if h.init_key = current_key then .ok h.ptr else .error .staleHandle

/-- Generation key installed by reset (caffe_.cpp line 725):
`init_key = static_cast<double>(caffe_rng_rand())`, where `r` is the
process-local rng draw (a uint32 value). -/
def reset_init_key (r : Nat) : Nat :=
  r % 4294967296

/-- Native caffe::Net as seen by the bridge: the ordered blob vector
(`net->blobs()`) and the parallel blob-name vector (`net->blob_names()`,
with `blob_names[i]` naming `blobs[i]`). -/
structure Net (a : Type) where
  blobs : List (Blob a)
  blob_names : List String
deriving DecidableEq, Repr, Inhabited

/-- Native caffe::Solver as seen by the multi-device handlers: its bound
device (`solver->param().device_id()`) and its training net
(`solver->net()`). -/
structure Solver (a : Type) where
  device_id : Int
  net : Net a
deriving DecidableEq, Repr, Inhabited

/-- Global P2PSync tree built by get_solver_multigpu (caffe_.cpp line
323, `sync_ptr`).  `solver` is the root solver (`sync_ptr->solver()`);
`syncs` holds the solver of each entry of `sync_ptr->get_syncs()`, the
only member the handlers read.  The handlers never dereference entry 0 of
`get_syncs()` (they use the root instead), and the cell-count checks use
the full `get_syncs()` size, so entry 0 is kept in the list. -/
structure P2PSync (a : Type) where
  solver : Solver a
  syncs : List (Solver a)
deriving DecidableEq, Repr, Inhabited

/-- Position of `name` in a blob-name vector, mirroring the
`blob_names_index_` map lookup of caffe::Net. -/
def blob_name_index : List String → String → Option Nat
  | [], _ => none
  | s :: rest, name =>
    if s = name then some 0 else (blob_name_index rest name).map (· + 1)

/-- Modelled from the spec: `Net::blob_by_name` (caffe net.cpp, outside
src/).  Per spec section 4.3, the per-replica lookup of a named tensor
"fails with UnknownTensorNameError if absent in some replica"; a present
name yields the blob stored at its index. -/
def blob_by_name {a : Type} [Inhabited a] (net : Net a) (name : String) :
    Except MexErr (Blob a) :=
  match blob_name_index net.blob_names name with
  | none => .error .unknownTensorName
  | some i => .ok (net.blobs.getD i default)

/-- Replica solvers visited, in order, by the fan-in loop of
blob_get_data_byname_multigpu (caffe_.cpp lines 849-866): index 0 uses
`sync_ptr->solver()`, index i > 0 uses `(*sync_vec)[i]->solver()`. -/
def gather_solvers {a : Type} (sync : P2PSync a) : List (Solver a) :=
  sync.solver :: sync.syncs.drop 1

/-- Fan-in loop body of blob_get_data_byname_multigpu: per replica, look
the blob up by name and marshal its DATA plane to a fresh host array; a
failed lookup aborts the whole command at once (mexErrMsgTxt), so no cell
list is produced. -/
def gather_loop {a : Type} [Inhabited a] (mode : CaffeMode) (name : String) :
    List (Solver a) → Except MexErr (List (MxMat a))
  | [] => .ok []
  | solver :: rest =>
    match blob_by_name solver.net name with
    | .error e => .error e
    | .ok blob =>
      match gather_loop mode name rest with
      | .error e => .error e
      | .ok cells => .ok (blob_to_mx_mat blob mode .DATA :: cells)

/-- Host-visible return value of blob_get_data_byname_multigpu: either
the declared per-replica cell list, or the scalar sentinel -1 that the
handler stores in plhs[0] when no solver has been created (caffe_.cpp
line 837, `mxCreateDoubleScalar(-1)`). -/
inductive GatherOut (a : Type) where
  | sentinel
  | cells (cs : List (MxMat a))
deriving DecidableEq, Repr

/-- blob_get_data_byname_multigpu (caffe_.cpp lines 828-870).
`solvers_empty` is the `solvers_.empty()` test of line 834: when true the
handler completes normally with the sentinel scalar -1 instead of raising.
Otherwise a null `sync_ptr` aborts (line 841); with a replica set the
fan-in loop runs over `gather_solvers`.  The handler performs no
cudaSetDevice call, so the active device `device` is returned unchanged
on every path. -/
def blob_get_data_byname_multigpu {a : Type} [Inhabited a]
    (solvers_empty : Bool) (syncOpt : Option (P2PSync a)) (name : String)
    (mode : CaffeMode) (device : Int) :
    Except MexErr (GatherOut a) × Int :=
  (if solvers_empty then
    .ok .sentinel
  else
    match syncOpt with
    | none => .error .noMultiGpuSolver
    | some sync => (gather_loop mode name (gather_solvers sync)).map .cells
  , device)

/-- Native blob index used by blob_set_data_multigpu (caffe_.cpp lines
629-630): the host-supplied uint32 index decremented by one in uint32
arithmetic (`blob_index = blob_index - 1`). -/
def scatter_blob_index (idxRaw : Nat) : Nat :=
  (idxRaw + 4294967295) % 4294967296

/-- Fan-out loop of blob_set_data_multigpu over the peer replicas
(caffe_.cpp lines 652-668), paired with their host cells.  Per peer the
source runs `cudaSetDevice(solver->param().device_id())`, writes the cell
into the peer's blob, then `cudaSetDevice(initial_device)`.  A failing
write aborts via mexErrMsgTxt between the two cudaSetDevice calls, so the
abort leaves the active device on that peer's device; the second
component of the result is the active device when the loop exits. -/
def scatter_loop {a : Type} [Inhabited a] (mode : CaffeMode)
    (blob_index : Nat) (initial_device : Int) :
    List (MxMat a × Solver a) → Except MexErr (List (Solver a)) × Int
  | [] => (.ok [], initial_device)
  | (cell, solver) :: rest =>
    match mx_mat_to_blob cell (solver.net.blobs.getD blob_index default)
        mode .DATA with
    | .error e => (.error e, solver.device_id)
    | .ok newBlob =>
      let solver' := { solver with
        net := { solver.net with
          blobs := solver.net.blobs.set blob_index newBlob } }
      match scatter_loop mode blob_index initial_device rest with
      | (.ok solvers, d) => (.ok (solver' :: solvers), d)
      | (.error e, d) => (.error e, d)

/-- blob_set_data_multigpu (caffe_.cpp lines 623-669).  The null check on
`sync_ptr` (line 627) runs before the first dereference of the replica
set (line 633); the host blob index is converted from 1-based to 0-based
(line 630); the cell count must equal `get_syncs()->size()` (line 636);
the root replica's blob is written without any device switch (lines
640-647); then the peer loop of `scatter_loop` runs with the device read
at line 650 as `initial_device`.  The second component is the active
device context when the handler exits. -/
def blob_set_data_multigpu {a : Type} [Inhabited a]
    (syncOpt : Option (P2PSync a)) (idxRaw : Nat) (cells : List (MxMat a))
    (mode : CaffeMode) (device : Int) :
    Except MexErr (P2PSync a) × Int :=
  match syncOpt with
  | none => (.error .noMultiGpuSolver, device)
  | some sync =>
    let blob_index := scatter_blob_index idxRaw
    if cells.length ≠ sync.syncs.length then
      (.error .countMismatch, device)
    else
      let elem := cells.getD 0 default
      let rootNet := sync.solver.net
      match mx_mat_to_blob elem (rootNet.blobs.getD blob_index default)
          mode .DATA with
      | .error e => (.error e, device)
      | .ok rootBlob =>
        let root' := { sync.solver with
          net := { rootNet with
            blobs := rootNet.blobs.set blob_index rootBlob } }
        match scatter_loop mode blob_index device
            ((cells.drop 1).zip (sync.syncs.drop 1)) with
        | (.ok peers, d) =>
          (.ok { solver := root', syncs := sync.syncs.take 1 ++ peers }, d)
        | (.error e, d) => (.error e, d)

/-- Device-validation loop of get_solver_multigpu (caffe_.cpp lines
272-278): each requested identifier (a double cast to int) is rejected
with the invalid-device error only when `device_id >= count`, where
`count` is the cudaGetDeviceCount result; accepted identifiers are pushed
onto the gpu list in order. -/
def validate_gpus (count : Int) : List Int → Except MexErr (List Int)
  | [] => .ok []
  | d :: rest =>
    if d ≥ count then .error .invalidDevice
    else (validate_gpus count rest).map (fun r => d :: r)

/-- Device-list handling of get_solver_multigpu before any replica is
constructed (caffe_.cpp lines 262-299): the validation loop, then the
empty-list rejection of line 285 ("No GPU found!!!").  Mode/device
binding and solver plus sync-tree construction (lines 287-333) happen
only after this returns successfully. -/
def get_solver_multigpu_gpus (count : Int) (device_list : List Int) :
    Except MexErr (List Int) :=
  match validate_gpus count device_list with
  | .error e => .error e
  | .ok gpus => if gpus.length = 0 then .error .noGpu else .ok gpus

/-- Command names of the handler registry (caffe_.cpp lines 908-946). -/
def handlers : List String :=
  ["get_solver", "solver_get_attr", "solver_get_iter", "solver_restore",
   "solver_solve", "solver_step", "solver_snapshot",
   "solver_teststep_multigpu", "get_solver_multigpu", "get_net",
   "net_get_attr", "net_forward", "net_backward", "net_copy_from",
   "net_reshape", "net_save", "layer_get_attr", "layer_get_type",
   "blob_get_shape", "blob_reshape", "blob_get_data",
   "blob_get_data_byname_multigpu", "blob_set_data",
   "blob_set_data_multigpu", "blob_get_diff", "blob_set_diff",
   "set_mode_cpu", "set_mode_gpu", "set_device", "get_init_key", "reset",
   "read_mean", "write_mean", "init_log"]

/-- Dispatch step of mexFunction (caffe_.cpp lines 959-974): a command
name in the registry is forwarded to its handler, any other name raises
the unknown-command error. -/
def mex_dispatch (cmd : String) : Except MexErr Unit :=
  if cmd ∈ handlers then .ok () else .error (.unknownCommand cmd)

/-- Whether an aborting command produced a result (true only on the ok
outcome). -/
def exceptOk {e b : Type} : Except e b → Bool
  | .ok _ => true
  | .error _ => false

/-! Helper lemmas -/

instance {e b : Type} [DecidableEq e] [DecidableEq b] :
    DecidableEq (Except e b) := fun x y =>
  match x, y with
  | .ok u, .ok v => decidable_of_iff (u = v) (by simp)
  | .ok _, .error _ => isFalse (by simp)
  | .error _, .ok _ => isFalse (by simp)
  | .error u, .error v => decidable_of_iff (u = v) (by simp)

theorem blob_name_index_none {l : List String} {name : String}
    (h : name ∉ l) : blob_name_index l name = none := by
  induction l with
  | nil => rfl
  | cons s rest ih =>
    have hs : ¬ s = name := fun hs => h (by simp [hs])
    have hrest : name ∉ rest := fun hm => h (List.mem_cons_of_mem _ hm)
    simp [blob_name_index, hs, ih hrest]

theorem blob_name_index_mem {l : List String} {name : String}
    (h : name ∈ l) : ∃ i, blob_name_index l name = some i := by
  induction l with
  | nil => simp at h
  | cons s rest ih =>
    by_cases hs : s = name
    · exact ⟨0, by simp [blob_name_index, hs]⟩
    · have hmem : name ∈ rest := by
        rcases List.mem_cons.mp h with h1 | h1
        · exact absurd h1.symm hs
        · exact h1
      rcases ih hmem with ⟨i, hi⟩
      exact ⟨i + 1, by simp [blob_name_index, hs, hi]⟩

theorem gather_loop_absent {a : Type} [Inhabited a] (mode : CaffeMode)
    (name : String) :
    ∀ l : List (Solver a), (∃ s ∈ l, name ∉ s.net.blob_names) →
      gather_loop mode name l = .error .unknownTensorName := by
  intro l
  induction l with
  | nil => rintro ⟨s, hs, -⟩; simp at hs
  | cons sv rest ih =>
    rintro ⟨s, hs, habs⟩
    by_cases hhd : name ∈ sv.net.blob_names
    · rcases blob_name_index_mem hhd with ⟨i, hi⟩
      have hrest : ∃ s ∈ rest, name ∉ s.net.blob_names := by
        rcases List.mem_cons.mp hs with rfl | hmem
        · exact absurd hhd habs
        · exact ⟨s, hmem, habs⟩
      simp only [gather_loop, blob_by_name, hi, ih hrest]
    · simp only [gather_loop, blob_by_name, blob_name_index_none hhd]

theorem scatter_loop_ok_device {a : Type} [Inhabited a] (mode : CaffeMode)
    (bi : Nat) (d0 : Int) :
    ∀ l : List (MxMat a × Solver a),
      exceptOk (scatter_loop mode bi d0 l).1 = true →
      (scatter_loop mode bi d0 l).2 = d0 := by
  intro l
  induction l with
  | nil => intro _; rfl
  | cons p rest ih =>
    obtain ⟨cell, solver⟩ := p
    intro h
    cases hm : mx_mat_to_blob cell (solver.net.blobs.getD bi default)
        mode .DATA with
    | error e =>
      simp only [scatter_loop, hm, exceptOk] at h
      exact absurd h (by simp)
    | ok nb =>
      cases hr : scatter_loop mode bi d0 rest with
      | mk r1 r2 =>
        cases r1 with
        | error e =>
          simp only [scatter_loop, hm, hr, exceptOk] at h
          exact absurd h (by simp)
        | ok ss =>
          have h2 := ih (by rw [hr]; rfl)
          rw [hr] at h2
          simp only [scatter_loop, hm, hr]
          exact h2

theorem validate_gpus_invalid (count : Int) :
    ∀ l : List Int, (∃ d ∈ l, count ≤ d) →
      validate_gpus count l = .error .invalidDevice := by
  intro l
  induction l with
  | nil => rintro ⟨d, hd, -⟩; simp at hd
  | cons x xs ih =>
    rintro ⟨d, hd, hcd⟩
    by_cases hx : x ≥ count
    · simp [validate_gpus, hx]
    · have hmem : d ∈ xs := by
        rcases List.mem_cons.mp hd with rfl | hmem
        · exact absurd hcd hx
        · exact hmem
      simp [validate_gpus, hx, ih ⟨d, hmem, hcd⟩, Except.map]

/-! Claim theorems -/

/-- Claim C1 (confirmed): a handle issued while the registry key was
`old_key` no longer resolves after a reset that draws `r` from the rng,
provided the fresh key differs from the old one (which the rng guarantees
except for a 2⁻³² collision): `handle_to_ptr` fails with the
stale-handle error, even though the handle's address still maps a live
object in `heap`. -/
theorem c1_stale_after_reset (old_key r addr : Nat) {Obj : Type}
    (heap : Nat → Option Obj) (o : Obj)
    (hlive : heap addr = some o) (hne : reset_init_key r ≠ old_key) :
    handle_to_ptr (reset_init_key r) (ptr_to_handle old_key addr)
      = .error .staleHandle ∧ heap addr = some o := by
  refine ⟨?_, hlive⟩
  simp [handle_to_ptr, ptr_to_handle, Ne.symm hne]

/-- Witness for C1 at a concrete pre-reset handle. -/
theorem c1_witness :
    handle_to_ptr (reset_init_key 2) (ptr_to_handle 1 5)
      = .error .staleHandle
    ∧ (fun n => if n = 5 then some (42 : Nat) else none) 5 = some 42 :=
  c1_stale_after_reset 1 2 5 (fun n => if n = 5 then some 42 else none) 42
    (by decide) (by decide)

/-- Claim C2, counterexample: for the zero-axis tensor (native shape [],
one element) the round trip succeeds element-wise, but the declared shape
of the returned array is [1], not the exact reverse of the native shape
(which would be []). -/
theorem c2_roundtrip_counterexample :
    mx_mat_to_blob (MxMat.mk [1] [(7 : Int)]) (Blob.mk [] [0] [])
      CaffeMode.CPU WhichMemory.DATA = .ok (Blob.mk [] [7] [])
    ∧ (blob_to_mx_mat (Blob.mk ([] : List Nat) [(7 : Int)] [])
        CaffeMode.CPU WhichMemory.DATA).dims = [1]
    ∧ ([1] : List Nat) ≠ (Blob.mk ([] : List Nat) [(7 : Int)] []).shape.reverse := by
  decide

/-- Claim C2 (corrected): for a host array whose element count equals the
tensor's, writing with `mx_mat_to_blob` and reading back with
`blob_to_mx_mat` returns the elements of the host array unchanged in flat
order (the copy is flat and contiguous, no transposition), and for every
tensor with at least one native axis the declared shape of the returned
array is the exact reverse of the native shape (a zero-axis tensor
returns shape [1] instead). -/
theorem c2_roundtrip_amended {a : Type} (mat : MxMat a) (blob : Blob a)
    (mode : CaffeMode)
    (hlen : mat.numel = blob.count) (hsh : blob.shape ≠ []) :
    mx_mat_to_blob mat blob mode .DATA
      = .ok { blob with data := mat.data }
    ∧ (blob_to_mx_mat { blob with data := mat.data } mode .DATA).data
      = mat.data
    ∧ (blob_to_mx_mat { blob with data := mat.data } mode .DATA).dims
      = blob.shape.reverse := by
  have hlen2 : blob.shape.prod = mat.data.length := hlen.symm
  have htake : mat.data.take blob.shape.prod = mat.data := by
    rw [hlen2, List.take_length]
  refine ⟨?_, ?_, ?_⟩
  · cases mode <;>
      simp [mx_mat_to_blob, Blob.count, MxMat.numel, hlen2, htake]
  · cases mode <;> simp [blob_to_mx_mat, Blob.count, htake]
  · cases mode <;>
      simp [blob_to_mx_mat, List.length_eq_zero, hsh]

/-- Witness for C2 at a concrete 2x2 tensor. -/
theorem c2_witness :
    mx_mat_to_blob (MxMat.mk [2, 2] [(1 : Int), 2, 3, 4])
        (Blob.mk [2, 2] [0, 0, 0, 0] []) CaffeMode.CPU WhichMemory.DATA
      = .ok { Blob.mk [2, 2] [(0 : Int), 0, 0, 0] [] with data := [1, 2, 3, 4] }
    ∧ (blob_to_mx_mat
        { Blob.mk [2, 2] [(0 : Int), 0, 0, 0] [] with data := [1, 2, 3, 4] }
        CaffeMode.CPU WhichMemory.DATA).data = [1, 2, 3, 4]
    ∧ (blob_to_mx_mat
        { Blob.mk [2, 2] [(0 : Int), 0, 0, 0] [] with data := [1, 2, 3, 4] }
        CaffeMode.CPU WhichMemory.DATA).dims = ([2, 2] : List Nat).reverse :=
  c2_roundtrip_amended (MxMat.mk [2, 2] [(1 : Int), 2, 3, 4])
    (Blob.mk [2, 2] [0, 0, 0, 0] []) CaffeMode.CPU (by decide) (by decide)

/-- Claim C3, counterexample: a concrete scatter whose second replica's
write fails (its cell has 1 element, its blob 2).  The handler aborts
with the size-mismatch error while the active device is still the
replica's device 3, not the caller's device 0: the restoration invariant
does not hold on this error exit path. -/
theorem c3_restore_counterexample :
    (blob_set_data_multigpu
      (some (P2PSync.mk
        (Solver.mk 0 (Net.mk [Blob.mk [2] [(0 : Int), 0] []] ["w"]))
        [Solver.mk 0 (Net.mk [] []),
         Solver.mk 3 (Net.mk [Blob.mk [2] [0, 0] []] ["w"])]))
      1 [MxMat.mk [2] [5, 6], MxMat.mk [1] [7]] CaffeMode.GPU 0).2 = 3
    ∧ (3 : Int) ≠ 0 := by
  decide

/-- Claim C3 (corrected): when a blob_set_data_multigpu call completes
and produces its result, the active device context equals the device
observed before the call, and blob_get_data_byname_multigpu performs no
device switch at all, returning the prior device on every path; but a
scatter aborted by an intermediate replica's failing write leaves the
device pinned to that replica's device (see the counterexample). -/
theorem c3_restore_amended {a : Type} [Inhabited a]
    (syncOpt : Option (P2PSync a)) (idxRaw : Nat) (cells : List (MxMat a))
    (mode : CaffeMode) (d0 : Int) (se : Bool) (sOpt : Option (P2PSync a))
    (name : String) (dg : Int)
    (hok : exceptOk (blob_set_data_multigpu syncOpt idxRaw cells mode d0).1
      = true) :
    (blob_set_data_multigpu syncOpt idxRaw cells mode d0).2 = d0
    ∧ (blob_get_data_byname_multigpu se sOpt name mode dg).2 = dg := by
  refine ⟨?_, rfl⟩
  cases syncOpt with
  | none =>
    simp only [blob_set_data_multigpu, exceptOk] at hok
    exact absurd hok (by simp)
  | some sync =>
    by_cases hlen : cells.length ≠ sync.syncs.length
    · simp only [blob_set_data_multigpu, if_pos hlen, exceptOk] at hok
      exact absurd hok (by simp)
    · cases hm : mx_mat_to_blob (cells.getD 0 default)
          (sync.solver.net.blobs.getD (scatter_blob_index idxRaw) default)
          mode .DATA with
      | error e =>
        simp only [blob_set_data_multigpu, if_neg hlen, hm, exceptOk] at hok
        exact absurd hok (by simp)
      | ok rootBlob =>
        cases hr : scatter_loop mode (scatter_blob_index idxRaw) d0
            ((cells.drop 1).zip (sync.syncs.drop 1)) with
        | mk r1 r2 =>
          cases r1 with
          | error e =>
            simp only [blob_set_data_multigpu, if_neg hlen, hm, hr,
              exceptOk] at hok
            exact absurd hok (by simp)
          | ok peers =>
            have h2 := scatter_loop_ok_device mode (scatter_blob_index idxRaw)
              d0 ((cells.drop 1).zip (sync.syncs.drop 1)) (by rw [hr]; rfl)
            rw [hr] at h2
            simp only [blob_set_data_multigpu, if_neg hlen, hm, hr]
            exact h2

/-- Witness for C3 at a concrete successful scatter (and a gather on
device 5). -/
theorem c3_witness :
    (blob_set_data_multigpu
      (some (P2PSync.mk
        (Solver.mk 0 (Net.mk [Blob.mk [2] [(0 : Int), 0] []] ["w"]))
        [Solver.mk 0 (Net.mk [] []),
         Solver.mk 3 (Net.mk [Blob.mk [2] [0, 0] []] ["w"])]))
      1 [MxMat.mk [2] [5, 6], MxMat.mk [2] [7, 8]] CaffeMode.GPU 0).2 = 0
    ∧ (blob_get_data_byname_multigpu false (none : Option (P2PSync Int))
        "w" CaffeMode.GPU 5).2 = 5 :=
  c3_restore_amended
    (some (P2PSync.mk
      (Solver.mk 0 (Net.mk [Blob.mk [2] [(0 : Int), 0] []] ["w"]))
      [Solver.mk 0 (Net.mk [] []),
       Solver.mk 3 (Net.mk [Blob.mk [2] [0, 0] []] ["w"])]))
    1 [MxMat.mk [2] [5, 6], MxMat.mk [2] [7, 8]] CaffeMode.GPU 0
    false none "w" 5 (by decide)

/-- Claim C4 (confirmed): when the named tensor is absent from some
replica visited by the fan-in loop, blob_get_data_byname_multigpu fails
with the unknown-tensor-name error; the error outcome carries no cell
list, so no partial per-replica results are returned. -/
theorem c4_gather_unknown_name {a : Type} [Inhabited a] (sync : P2PSync a)
    (name : String) (mode : CaffeMode) (d : Int)
    (h : ∃ s ∈ gather_solvers sync, name ∉ s.net.blob_names) :
    (blob_get_data_byname_multigpu false (some sync) name mode d).1
      = .error .unknownTensorName := by
  simp only [blob_get_data_byname_multigpu, Bool.false_eq_true, if_false,
    gather_loop_absent mode name _ h, Except.map]

/-- Witness for C4: name "b" is absent from both replicas. -/
theorem c4_witness :
    (blob_get_data_byname_multigpu false
      (some (P2PSync.mk
        (Solver.mk 0 (Net.mk [Blob.mk [2] [(1 : Int), 2] []] ["w"]))
        [Solver.mk 0 (Net.mk [] []),
         Solver.mk 3 (Net.mk [Blob.mk [2] [3, 4] []] ["w"])]))
      "b" CaffeMode.GPU 5).1 = .error .unknownTensorName :=
  c4_gather_unknown_name
    (P2PSync.mk
      (Solver.mk 0 (Net.mk [Blob.mk [2] [(1 : Int), 2] []] ["w"]))
      [Solver.mk 0 (Net.mk [] []),
       Solver.mk 3 (Net.mk [Blob.mk [2] [3, 4] []] ["w"])])
    "b" CaffeMode.GPU 5 (by decide)

/-- Claim C5, counterexample: with no solver created,
blob_get_data_byname_multigpu completes normally and returns the scalar
sentinel -1 (caffe_.cpp lines 834-838) instead of raising a host-visible
error, so a sentinel value does stand in for an error at the boundary. -/
theorem c5_sentinel_counterexample :
    (blob_get_data_byname_multigpu (a := Int) true none "conv1"
      CaffeMode.CPU 0).1 = .ok GatherOut.sentinel := by
  rfl

/-- Claim C5 (corrected): apart from the no-solver sentinel of
blob_get_data_byname_multigpu, the boundary is all-or-nothing: once at
least one solver exists the command either raises an error or returns
its declared per-replica cell list (never the sentinel), and mexFunction
raises the unknown-command error for a command name outside the handler
registry. -/
theorem c5_no_sentinel_amended {a : Type} [Inhabited a]
    (syncOpt : Option (P2PSync a)) (name : String) (mode : CaffeMode)
    (d : Int) (cmd : String) (hcmd : cmd ∉ handlers) :
    (blob_get_data_byname_multigpu false syncOpt name mode d).1
      ≠ .ok .sentinel
    ∧ mex_dispatch cmd = .error (.unknownCommand cmd) := by
  constructor
  · cases syncOpt with
    | none => simp [blob_get_data_byname_multigpu]
    | some sync =>
      cases hg : gather_loop mode name (gather_solvers sync) with
      | error e => simp [blob_get_data_byname_multigpu, hg, Except.map]
      | ok cs => simp [blob_get_data_byname_multigpu, hg, Except.map]
  · simp [mex_dispatch, hcmd]

/-- Witness for C5 at a concrete call with a solver present and an
unknown command name. -/
theorem c5_witness :
    (blob_get_data_byname_multigpu (a := Int) false none "w"
      CaffeMode.CPU 0).1 ≠ .ok .sentinel
    ∧ mex_dispatch "frobnicate" = .error (.unknownCommand "frobnicate") :=
  c5_no_sentinel_amended none "w" CaffeMode.CPU 0 "frobnicate" (by decide)

/-- Claim C6, counterexample: the device-validation loop of
get_solver_multigpu accepts the negative device identifier -1 (it only
rejects identifiers at or above the device count), so a request for a
device below 0 does not fail with the invalid-device error. -/
theorem c6_negative_counterexample :
    get_solver_multigpu_gpus 4 [-1] = .ok [-1] ∧ (-1 : Int) < 0 := by
  decide

/-- Claim C6 (corrected): if any requested device identifier is at or
above the number of available devices, get_solver_multigpu fails with
the invalid-device error during the validation loop, before any replica
(solver or sync tree) is constructed; identifiers below 0 are not
rejected by this validation. -/
theorem c6_invalid_device_amended (count : Int) (l : List Int)
    (h : ∃ d ∈ l, count ≤ d) :
    get_solver_multigpu_gpus count l = .error .invalidDevice := by
  simp only [get_solver_multigpu_gpus, validate_gpus_invalid count l h]

/-- Witness for C6: device 99 with 4 available devices (spec scenario 3). -/
theorem c6_witness :
    get_solver_multigpu_gpus 4 [99] = .error .invalidDevice :=
  c6_invalid_device_amended 4 [99] (by decide)

/-- Claim C7 (confirmed): a host array whose element count differs from
the target blob's count makes mx_mat_to_blob abort with the
size-mismatch error, and the target blob is returned unmutated — the
check runs before any element is copied. -/
theorem c7_size_mismatch {a : Type} (mat : MxMat a) (blob : Blob a)
    (mode : CaffeMode) (w : WhichMemory) (h : mat.numel ≠ blob.count) :
    mx_mat_to_blob_run mat blob mode w = (blob, some .sizeMismatch) := by
  simp [mx_mat_to_blob_run, mx_mat_to_blob, Ne.symm h]

/-- Witness for C7: a 3-element array against a 2-element blob. -/
theorem c7_witness :
    mx_mat_to_blob_run (MxMat.mk [3] [(1 : Int), 2, 3])
      (Blob.mk [2] [0, 0] []) CaffeMode.CPU WhichMemory.DATA
      = (Blob.mk [2] [0, 0] [], some .sizeMismatch) :=
  c7_size_mismatch (MxMat.mk [3] [(1 : Int), 2, 3]) (Blob.mk [2] [0, 0] [])
    CaffeMode.CPU WhichMemory.DATA (by decide)

/-- Claim C8 (confirmed): resolving a handle freshly issued for an
object's address while the generation key is unchanged hands back
exactly that address, and the heap still maps it to the object, so the
caller reaches exactly the object the handle was issued for. -/
theorem c8_issue_resolve (key addr : Nat) {Obj : Type}
    (heap : Nat → Option Obj) (o : Obj) (hlive : heap addr = some o) :
    Except.map heap (handle_to_ptr key (ptr_to_handle key addr))
      = .ok (some o) := by
  simp [handle_to_ptr, ptr_to_handle, Except.map, hlive]

/-- Witness for C8 at a concrete heap. -/
theorem c8_witness :
    Except.map (fun n => if n = 5 then some (42 : Nat) else none)
      (handle_to_ptr 7 (ptr_to_handle 7 5)) = .ok (some 42) :=
  c8_issue_resolve 7 5 (fun n => if n = 5 then some 42 else none) 42
    (by decide)

/-- Claim C9 (confirmed): for a zero-axis blob (whose element count is
1), blob_to_mx_mat returns a one-dimensional array of declared dims [1]
holding exactly one element. -/
theorem c9_zero_dim {a : Type} (blob : Blob a) (mode : CaffeMode)
    (hsh : blob.shape = []) (hwf : blob.data.length = blob.count) :
    (blob_to_mx_mat blob mode .DATA).dims = [1]
    ∧ (blob_to_mx_mat blob mode .DATA).data.length = 1 := by
  have hlen : blob.data.length = 1 := by
    rw [hwf]; simp [Blob.count, hsh]
  cases mode <;>
    simp [blob_to_mx_mat, Blob.count, hsh, hlen]

/-- Witness for C9 at a concrete zero-axis blob. -/
theorem c9_witness :
    (blob_to_mx_mat (Blob.mk ([] : List Nat) [(5 : Int)] [])
      CaffeMode.CPU .DATA).dims = [1]
    ∧ (blob_to_mx_mat (Blob.mk ([] : List Nat) [(5 : Int)] [])
      CaffeMode.CPU .DATA).data.length = 1 :=
  c9_zero_dim (Blob.mk ([] : List Nat) [(5 : Int)] []) CaffeMode.CPU
    (by decide) (by decide)

/-- Claim C10 (confirmed): calling blob_set_data_multigpu before any
replica set has been built (null sync pointer) aborts at once with the
descriptive multi-GPU error, touching neither the replica set (which is
never dereferenced) nor the device context; and the host-supplied
1-based uint32 blob index is converted to the native 0-based index. -/
theorem c10_scatter_guard {a : Type} [Inhabited a] (cells : List (MxMat a))
    (mode : CaffeMode) (d : Int) (idxRaw : Nat)
    (h1 : 1 ≤ idxRaw) (h2 : idxRaw < 4294967296) :
    blob_set_data_multigpu none idxRaw cells mode d
      = (.error .noMultiGpuSolver, d)
    ∧ scatter_blob_index idxRaw = idxRaw - 1 := by
  refine ⟨rfl, ?_⟩
  unfold scatter_blob_index
  omega

/-- Witness for C10 at a concrete 1-based index. -/
theorem c10_witness :
    blob_set_data_multigpu (a := Int) none 3 [] CaffeMode.CPU 7
      = (.error .noMultiGpuSolver, 7)
    ∧ scatter_blob_index 3 = 2 :=
  c10_scatter_guard [] CaffeMode.CPU 7 3 (by decide) (by decide)

end MatCaffe
